import Mathlib

/-!
Shallow embedding of the guardrails module of `main.py`
(`CiscoAIDefenseGuardrails` and its helpers).

Python regular-expression search (`re.search`) is abstracted by an explicit
function parameter `search : String → String → Bool` (pattern, text): every
theorem below holds for an arbitrary matcher.  Topic matching in the source is
the plain Python substring operator `in`, which is embedded exactly
(`occursIn`).  Logging side effects are embedded as an explicit list of log
lines returned next to each result, and the self object is threaded explicitly
where a claim is about state.
-/

/-- Actions that can be taken when a guardrail is triggered
(`GuardrailAction` in `main.py`). -/
inductive GuardrailAction where
  | allow
  | block
  | log
  | modify
deriving DecidableEq, Repr

/-- Result of a guardrail check (`GuardrailResult` in `main.py`). -/
structure GuardrailResult where
  passed : Bool
  action : GuardrailAction
  message : String
  modified_content : Option String := none
  violations : Option (List String) := none
deriving DecidableEq, Repr

/-- Configuration fields of a `CiscoAIDefenseGuardrails` object, as set by
`__init__` in `main.py`. -/
structure CiscoAIDefenseGuardrails where
  application_name : String := "langchain-cicd-app"
  description : String := "Application ensuring AI security"
  enable_input_validation : Bool := true
  enable_output_validation : Bool := true
  enable_logging : Bool := true
  strict_mode : Bool := false
deriving DecidableEq, Repr

/-- The list `INJECTION_PATTERNS` of `main.py`: regex patterns for detecting
potentially malicious inputs (literal braces written with escapes). -/
def INJECTION_PATTERNS : List String :=
  [ "ignore\\s+(previous|above|all)\\s+instructions"
  , "disregard\\s+(your|the)\\s+(instructions|rules|guidelines)"
  , "you\\s+are\\s+now\\s+(a|an)\\s+"
  , "pretend\\s+(you\\s+are|to\\s+be)"
  , "act\\s+as\\s+(if|a|an)"
  , "new\\s+instructions:"
  , "override\\s+(system|previous)"
  , "forget\\s+(everything|your\\s+instructions)"
  , "jailbreak"
  , "DAN\\s+mode" ]

/-- The list `SENSITIVE_DATA_PATTERNS` of `main.py`: regex patterns for detecting
sensitive data in outputs (literal braces written with escapes). -/
def SENSITIVE_DATA_PATTERNS : List String :=
  [ "\\b[A-Za-z0-9._%+-]+@[A-Za-z0-9.-]+\\.[A-Z|a-z]\x7b2,\x7d\\b"
  , "\\b\\d\x7b3\x7d[-.]?\\d\x7b3\x7d[-.]?\\d\x7b4\x7d\\b"
  , "\\b\\d\x7b3\x7d[-]?\\d\x7b2\x7d[-]?\\d\x7b4\x7d\\b"
  , "\\b(?:4[0-9]\x7b12\x7d(?:[0-9]\x7b3\x7d)?|5[1-5][0-9]\x7b14\x7d)\\b"
  , "sk-[a-zA-Z0-9]\x7b48\x7d"
  , "Bearer\\s+[a-zA-Z0-9\\-._~+/]+=*" ]

/-- The list `BLOCKED_TOPICS` of `main.py`. -/
def BLOCKED_TOPICS : List String :=
  ["malware", "exploit", "hack", "illegal", "weapon"]

/-- Holds when `ns` is a leading segment of `hs` (character lists). -/
def startsWithChars : List Char → List Char → Bool
  | [], _ => true
  | _ :: _, [] => false
  | n :: ns, h :: hs => n = h && startsWithChars ns hs

/-- Holds when `ns` occurs as a contiguous segment of `hs` (character lists). -/
def occursIn (ns : List Char) : List Char → Bool
  | [] => startsWithChars ns []
  | h :: hs => startsWithChars ns (h :: hs) || occursIn ns hs

/-- The Python substring operator `needle in haystack` on strings. -/
def strIn (needle haystack : String) : Bool :=
  occursIn needle.data haystack.data

/-- The Python method `str.lower()`, embedded as a character-wise map
(ASCII case folding). -/
def pyLower (s : String) : String :=
  String.mk (s.data.map Char.toLower)

/-- A concrete matcher (plain substring search) used to instantiate the
abstract `search` parameter on concrete runs. -/
def literalSearch (pattern text : String) : Bool :=
  strIn pattern text

/-- The violation message for an injection pattern,
`f"Potential prompt injection detected: pattern '{pattern}'"` in `main.py`. -/
def injectionMsg (pattern : String) : String :=
  "Potential prompt injection detected: pattern \x27" ++ pattern ++ "\x27"

/-- The violation message for a blocked topic,
`f"Blocked topic detected: '{topic}'"` in `main.py`. -/
def topicMsg (topic : String) : String :=
  "Blocked topic detected: \x27" ++ topic ++ "\x27"

/-- The violation message for an over-long input,
`f"Input exceeds maximum length of {max_length} characters"` in `main.py`. -/
def lengthMsg : String :=
  "Input exceeds maximum length of " ++ toString 10000 ++ " characters"

/-- The `violations` list accumulated by the body of
`CiscoAIDefenseGuardrails.validate_input`: one entry per injection pattern
found in the lowercased input (`re.search` abstracted by `search`), one entry
per blocked topic occurring in the lowercased input, and one entry when the
input exceeds 10000 characters.  It depends only on class constants, not on
the object's configuration. -/
def input_violations (search : String → String → Bool) (user_input : String) :
    List String :=
  let input_lower := pyLower user_input
  (INJECTION_PATTERNS.filterMap fun pattern =>
    if search pattern input_lower then some (injectionMsg pattern) else none)
  ++
  (BLOCKED_TOPICS.filterMap fun topic =>
    if strIn (pyLower topic) input_lower then some (topicMsg topic) else none)
  ++
  (if user_input.length > 10000 then [lengthMsg] else [])

/-- The violation message for a sensitive-data pattern,
`f"Potential sensitive data detected: pattern '{pattern}'"` in `main.py`. -/
def sensitiveMsg (pattern : String) : String :=
  "Potential sensitive data detected: pattern \x27" ++ pattern ++ "\x27"

/-- The `violations` list accumulated by the body of
`CiscoAIDefenseGuardrails.validate_output`: one entry per sensitive-data
pattern found in the output (`re.search` abstracted by `search`). -/
def output_violations (search : String → String → Bool) (llm_output : String) :
    List String :=
  SENSITIVE_DATA_PATTERNS.filterMap fun pattern =>
    if search pattern llm_output then some (sensitiveMsg pattern) else none

/-- The method `CiscoAIDefenseGuardrails.validate_input` of `main.py`, with the lines it
sends to the logger returned as an explicit trace next to the
`GuardrailResult`. -/
def validate_input (search : String → String → Bool)
    (g : CiscoAIDefenseGuardrails) (user_input : String) :
    GuardrailResult × List String :=
  if !g.enable_input_validation then
    ({ passed := true
     , action := GuardrailAction.allow
     , message := "Input validation disabled" }, [])
  else
    let violations := input_violations search user_input
    if !violations.isEmpty then
      let logs :=
        if g.enable_logging then
          ["[" ++ g.application_name ++ "] Input validation violations: "
            ++ String.intercalate ", " violations]
        else []
      if g.strict_mode then
        ({ passed := false
         , action := GuardrailAction.block
         , message := "Input blocked due to security violations"
         , violations := some violations }, logs)
      else
        ({ passed := true
         , action := GuardrailAction.log
         , message := "Input allowed with logged violations"
         , violations := some violations }, logs)
    else
      let logs :=
        if g.enable_logging then
          ["[" ++ g.application_name ++ "] Input validation passed"]
        else []
      ({ passed := true
       , action := GuardrailAction.allow
       , message := "Input validation passed" }, logs)

/-- The method `CiscoAIDefenseGuardrails.validate_output` of `main.py`, with the lines it
sends to the logger returned as an explicit trace next to the
`GuardrailResult`. -/
def validate_output (search : String → String → Bool)
    (g : CiscoAIDefenseGuardrails) (llm_output : String) :
    GuardrailResult × List String :=
  if !g.enable_output_validation then
    ({ passed := true
     , action := GuardrailAction.allow
     , message := "Output validation disabled" }, [])
  else
    let violations := output_violations search llm_output
    if !violations.isEmpty then
      let logs :=
        if g.enable_logging then
          ["[" ++ g.application_name ++ "] Output validation violations: "
            ++ String.intercalate ", " violations]
        else []
      if g.strict_mode then
        ({ passed := false
         , action := GuardrailAction.block
         , message := "Output blocked due to sensitive data detection"
         , violations := some violations }, logs)
      else
        ({ passed := true
         , action := GuardrailAction.log
         , message := "Output allowed with logged violations"
         , violations := some violations }, logs)
    else
      let logs :=
        if g.enable_logging then
          ["[" ++ g.application_name ++ "] Output validation passed"]
        else []
      ({ passed := true
       , action := GuardrailAction.allow
       , message := "Output validation passed" }, logs)

/-- State-passing form of `validate_input`: the method body of `main.py`
assigns to no field of `self`, so the object after the call is built from the
same fields it was called with. -/
def validate_inputS (search : String → String → Bool)
    (g : CiscoAIDefenseGuardrails) (user_input : String) :
    (GuardrailResult × List String) × CiscoAIDefenseGuardrails :=
  (validate_input search g user_input, g)

/-- State-passing form of `validate_output`: the method body of `main.py`
assigns to no field of `self`, so the object after the call is built from the
same fields it was called with. -/
def validate_outputS (search : String → String → Bool)
    (g : CiscoAIDefenseGuardrails) (llm_output : String) :
    (GuardrailResult × List String) × CiscoAIDefenseGuardrails :=
  (validate_output search g llm_output, g)

/-- The method `CiscoAIDefenseGuardrails.wrap_llm_call` of `main.py`.  The chain is an
arbitrary function from the input dictionary (an association list) to a
response of arbitrary type `ρ`; `content` extracts the response content
(`response.content if hasattr(response, 'content') else str(response)`).
Returned next to the optional response: the number of times the chain
invocation site ran, and the log trace. -/
def wrap_llm_call {ρ : Type} (search : String → String → Bool)
    (g : CiscoAIDefenseGuardrails) (chain : List (String × String) → ρ)
    (content : ρ → String) (input_dict : List (String × String)) :
    Option ρ × Nat × List String :=
  let user_input := (input_dict.lookup "input").getD ""
  let logs0 :=
    if g.enable_logging then
      ["[" ++ g.application_name
        ++ "] Processing request with AI Defense Guardrails"]
    else []
  let ir := validate_input search g user_input
  if !ir.1.passed then
    (none, 0, logs0 ++ ir.2
      ++ ["[" ++ g.application_name
           ++ "] Request blocked at input validation: " ++ ir.1.message])
  else
    let response := chain input_dict
    let output_content := content response
    let or_ := validate_output search g output_content
    if !or_.1.passed then
      (none, 1, logs0 ++ ir.2 ++ or_.2
        ++ ["[" ++ g.application_name
             ++ "] Response blocked at output validation: " ++ or_.1.message])
    else
      (some response, 1, logs0 ++ ir.2 ++ or_.2)

/-- Modelled from the spec for claim C1 (refinement side): "wrap_llm_call
sandwiches validation around the chain invocation: it first calls
validate_input on the value at key "input" (defaulting to the empty string),
returns None without invoking the chain if that result has passed=False,
otherwise invokes the chain, calls validate_output on the response content,
returns None if that result has passed=False, and returns the chain's response
unchanged otherwise." -/
def wrap_llm_call_spec {ρ : Type} (search : String → String → Bool)
    (g : CiscoAIDefenseGuardrails) (chain : List (String × String) → ρ)
    (content : ρ → String) (input_dict : List (String × String)) :
    Option ρ :=
  let ir := (validate_input search g ((input_dict.lookup "input").getD "")).1
  if ir.passed = false then none
  else
    let response := chain input_dict
    let orr := (validate_output search g (content response)).1
    if orr.passed = false then none
    else some response

section Helpers

/-- Length of a guarded `filterMap` equals the count of elements satisfying
the guard. -/
theorem length_filterMap_guard {α β : Type} (f : α → β) (p : α → Bool)
    (l : List α) :
    (l.filterMap fun a => if p a then some (f a) else none).length =
      l.countP p := by
  induction l with
  | nil => rfl
  | cons a l ih =>
    by_cases h : p a <;> simp [List.filterMap_cons, List.countP_cons, h, ih]

/-- Membership of `f b` in a guarded `filterMap`, given that `f` is injective
on the list. -/
theorem mem_filterMap_guard_iff {α β : Type} {f : α → β} {l : List α}
    {b : α} (hinj : ∀ a ∈ l, f a = f b → a = b) (hb : b ∈ l) (p : α → Bool) :
    f b ∈ (l.filterMap fun a => if p a then some (f a) else none) ↔
      p b = true := by
  constructor
  · intro h
    rcases List.mem_filterMap.1 h with ⟨a, ha, hfa⟩
    by_cases hpa : p a
    · simp only [hpa, if_true, Option.some.injEq] at hfa
      rw [← hinj a ha hfa]
      exact hpa
    · simp [hpa] at hfa
  · intro h
    exact List.mem_filterMap.2 ⟨b, hb, by simp [h]⟩

/-- An element different from every `f a` is not in a guarded `filterMap`. -/
theorem not_mem_filterMap_guard {α β : Type} {f : α → β} {l : List α}
    {y : β} (h : ∀ a ∈ l, y ≠ f a) (p : α → Bool) :
    y ∉ (l.filterMap fun a => if p a then some (f a) else none) := by
  intro hy
  rcases List.mem_filterMap.1 hy with ⟨a, ha, hfa⟩
  by_cases hpa : p a
  · simp only [hpa, if_true, Option.some.injEq] at hfa
    exact h a ha hfa.symm
  · simp [hpa] at hfa

end Helpers

/-- C1: for every chain and input dictionary, `wrap_llm_call` sandwiches
validation around the chain invocation exactly as the spec describes it
(`wrap_llm_call_spec`): validate the value at key "input" (default ""),
return none if that fails, otherwise invoke the chain, validate the response
content, return none if that fails, and otherwise return the response
unchanged. -/
theorem wrap_llm_call_sandwiches_validation {ρ : Type}
    (search : String → String → Bool) (g : CiscoAIDefenseGuardrails)
    (chain : List (String × String) → ρ) (content : ρ → String)
    (input_dict : List (String × String)) :
    (wrap_llm_call search g chain content input_dict).1 =
      wrap_llm_call_spec search g chain content input_dict := by
  unfold wrap_llm_call wrap_llm_call_spec
  by_cases h : (validate_input search g
      ((input_dict.lookup "input").getD "")).1.passed <;>
    by_cases h2 : (validate_output search g
        (content (chain input_dict))).1.passed <;>
      simp [h, h2]

/-- C5: every result of `validate_input` or `validate_output` has action
allow, block, or log — never modify — and its `modified_content` is none. -/
theorem guardrail_action_invariant (search : String → String → Bool)
    (g : CiscoAIDefenseGuardrails) (s o : String) :
    ((validate_input search g s).1.action = GuardrailAction.allow ∨
      (validate_input search g s).1.action = GuardrailAction.block ∨
      (validate_input search g s).1.action = GuardrailAction.log) ∧
    (validate_input search g s).1.action ≠ GuardrailAction.modify ∧
    (validate_input search g s).1.modified_content = none ∧
    ((validate_output search g o).1.action = GuardrailAction.allow ∨
      (validate_output search g o).1.action = GuardrailAction.block ∨
      (validate_output search g o).1.action = GuardrailAction.log) ∧
    (validate_output search g o).1.action ≠ GuardrailAction.modify ∧
    (validate_output search g o).1.modified_content = none := by
  unfold validate_input validate_output
  by_cases h1 : g.enable_input_validation <;>
    by_cases h2 : g.enable_output_validation <;>
      by_cases h3 : (input_violations search s).isEmpty <;>
        by_cases h4 : (output_violations search o).isEmpty <;>
          by_cases h5 : g.strict_mode <;>
            simp [h1, h2, h3, h4, h5]

/-- C6: validation keeps no persistent state — in the state-passing form of
both methods, every configuration field of the returned object equals the
corresponding field of the object the method was called on. -/
theorem validate_preserves_fields (search : String → String → Bool)
    (g : CiscoAIDefenseGuardrails) (s o : String) :
    (validate_inputS search g s).2.application_name = g.application_name ∧
    (validate_inputS search g s).2.description = g.description ∧
    (validate_inputS search g s).2.enable_input_validation =
      g.enable_input_validation ∧
    (validate_inputS search g s).2.enable_output_validation =
      g.enable_output_validation ∧
    (validate_inputS search g s).2.enable_logging = g.enable_logging ∧
    (validate_inputS search g s).2.strict_mode = g.strict_mode ∧
    (validate_outputS search g o).2 = g := by
  exact ⟨rfl, rfl, rfl, rfl, rfl, rfl, rfl⟩

/-- C7: validation is deterministic — a call after any prior call returns the
same result as a fresh call on the same configuration and input, and the
returned `GuardrailResult` does not depend on the `enable_logging` setting. -/
theorem validate_deterministic (search : String → String → Bool)
    (g : CiscoAIDefenseGuardrails) (s o s' o' : String) (b : Bool) :
    validate_input search (validate_inputS search g s').2 s =
      validate_input search g s ∧
    validate_output search (validate_outputS search g o').2 o =
      validate_output search g o ∧
    (validate_input search { g with enable_logging := b } s).1 =
      (validate_input search g s).1 ∧
    (validate_output search { g with enable_logging := b } o).1 =
      (validate_output search g o).1 := by
  refine ⟨rfl, rfl, ?_, ?_⟩
  · unfold validate_input
    by_cases h1 : g.enable_input_validation <;>
      by_cases h3 : (input_violations search s).isEmpty <;>
        by_cases h5 : g.strict_mode <;>
          simp [h1, h3, h5]
  · unfold validate_output
    by_cases h2 : g.enable_output_validation <;>
      by_cases h4 : (output_violations search o).isEmpty <;>
        by_cases h5 : g.strict_mode <;>
          simp [h2, h4, h5]

/-- C9: when input validation is disabled — regardless of the other flags —
`validate_input` allows every input with no violations recorded;
symmetrically, when output validation is disabled, `validate_output` allows
every output. -/
theorem validation_disabled_allows (search : String → String → Bool)
    (g : CiscoAIDefenseGuardrails) (s o : String) :
    (g.enable_input_validation = false →
      (validate_input search g s).1.passed = true ∧
      (validate_input search g s).1.action = GuardrailAction.allow ∧
      (validate_input search g s).1.violations = none) ∧
    (g.enable_output_validation = false →
      (validate_output search g o).1.passed = true ∧
      (validate_output search g o).1.action = GuardrailAction.allow ∧
      (validate_output search g o).1.violations = none) := by
  constructor
  · intro h1
    unfold validate_input
    simp [h1]
  · intro h2
    unfold validate_output
    simp [h2]

/-- Witness for C9 at a mixed configuration (input validation off, output
validation on) and an input that would otherwise be flagged. -/
theorem validation_disabled_allows_witness :
    (validate_input literalSearch
        { enable_input_validation := false } "jailbreak hack").1.passed =
      true :=
  ((validation_disabled_allows literalSearch
    { enable_input_validation := false }
    "jailbreak hack" "call me at 555-123-4567").1 rfl).1

/-- With validation enabled, strict mode, and a nonempty violations list,
`validate_input` does not pass. -/
theorem validate_input_strict_blocks (search : String → String → Bool)
    (g : CiscoAIDefenseGuardrails) (s : String)
    (h1 : g.enable_input_validation = true) (h2 : g.strict_mode = true)
    (h3 : input_violations search s ≠ []) :
    (validate_input search g s).1.passed = false := by
  unfold validate_input
  simp [h1, h2, h3, List.isEmpty_iff]

/-- C2: for each validator, conditioned only on its own enable flag, a
blocking result (passed false, action block) arises exactly when strict mode
is on and a violation was found; violations without strict mode yield passed
true with action log and the violation list; no violations yield passed true
with action allow. -/
theorem strict_mode_decision_rule (search : String → String → Bool)
    (g : CiscoAIDefenseGuardrails) (s o : String) :
    (g.enable_input_validation = true →
      ((((validate_input search g s).1.passed = false ∧
          (validate_input search g s).1.action = GuardrailAction.block) ↔
        (g.strict_mode = true ∧ input_violations search s ≠ [])) ∧
      (g.strict_mode = false → input_violations search s ≠ [] →
        (validate_input search g s).1.passed = true ∧
        (validate_input search g s).1.action = GuardrailAction.log ∧
        (validate_input search g s).1.violations =
          some (input_violations search s)) ∧
      (input_violations search s = [] →
        (validate_input search g s).1.passed = true ∧
        (validate_input search g s).1.action = GuardrailAction.allow))) ∧
    (g.enable_output_validation = true →
      ((((validate_output search g o).1.passed = false ∧
          (validate_output search g o).1.action = GuardrailAction.block) ↔
        (g.strict_mode = true ∧ output_violations search o ≠ [])) ∧
      (g.strict_mode = false → output_violations search o ≠ [] →
        (validate_output search g o).1.passed = true ∧
        (validate_output search g o).1.action = GuardrailAction.log ∧
        (validate_output search g o).1.violations =
          some (output_violations search o)) ∧
      (output_violations search o = [] →
        (validate_output search g o).1.passed = true ∧
        (validate_output search g o).1.action = GuardrailAction.allow))) := by
  constructor
  · intro h1
    unfold validate_input
    by_cases h3 : input_violations search s = [] <;>
      by_cases h5 : g.strict_mode <;>
        simp [h1, h3, h5, List.isEmpty_iff]
  · intro h2
    unfold validate_output
    by_cases h4 : output_violations search o = [] <;>
      by_cases h5 : g.strict_mode <;>
        simp [h2, h4, h5, List.isEmpty_iff]

/-- Witness for C2: with strict mode on, the input "hack" is blocked, even in
the mixed configuration where output validation is disabled. -/
theorem strict_mode_decision_rule_witness :
    (validate_input literalSearch
        { strict_mode := true, enable_output_validation := false }
        "hack").1.passed = false ∧
    (validate_input literalSearch
        { strict_mode := true, enable_output_validation := false }
        "hack").1.action = GuardrailAction.block :=
  (((strict_mode_decision_rule literalSearch
      { strict_mode := true, enable_output_validation := false }
      "hack" "fine").1 rfl).1).mpr ⟨rfl, by decide⟩

/-- Equal violation lists give equal `validate_input` results on the same
configuration. -/
theorem validate_input_congr (search₁ search₂ : String → String → Bool)
    (g : CiscoAIDefenseGuardrails) (s₁ s₂ : String)
    (h : input_violations search₁ s₁ = input_violations search₂ s₂) :
    validate_input search₁ g s₁ = validate_input search₂ g s₂ := by
  unfold validate_input
  rw [h]

/-- Equal violation lists give equal `validate_output` results on the same
configuration. -/
theorem validate_output_congr (search₁ search₂ : String → String → Bool)
    (g : CiscoAIDefenseGuardrails) (o₁ o₂ : String)
    (h : output_violations search₁ o₁ = output_violations search₂ o₂) :
    validate_output search₁ g o₁ = validate_output search₂ g o₂ := by
  unfold validate_output
  rw [h]

/-- C3: the violations list holds one entry per injection pattern matching
the lowercased input, one per blocked topic occurring in it, and one when the
length bound is exceeded (respectively one per sensitive-data pattern
matching the output); with validation enabled these lists are the recorded
violations, and the decision depends only on the violations list. -/
theorem violation_counts (search : String → String → Bool)
    (g : CiscoAIDefenseGuardrails) (s o : String) :
    (input_violations search s).length =
        (INJECTION_PATTERNS.countP fun p => search p (pyLower s)) +
        (BLOCKED_TOPICS.countP fun t => strIn (pyLower t) (pyLower s)) +
        (if s.length > 10000 then 1 else 0) ∧
    (output_violations search o).length =
        (SENSITIVE_DATA_PATTERNS.countP fun p => search p o) ∧
    (g.enable_input_validation = true → input_violations search s ≠ [] →
      (validate_input search g s).1.violations =
        some (input_violations search s)) ∧
    (g.enable_output_validation = true → output_violations search o ≠ [] →
      (validate_output search g o).1.violations =
        some (output_violations search o)) ∧
    (∀ (search₂ : String → String → Bool) (s₂ : String),
      input_violations search s = input_violations search₂ s₂ →
      validate_input search g s = validate_input search₂ g s₂) ∧
    (∀ (search₂ : String → String → Bool) (o₂ : String),
      output_violations search o = output_violations search₂ o₂ →
      validate_output search g o = validate_output search₂ g o₂) := by
  refine ⟨?_, ?_, ?_, ?_, ?_, ?_⟩
  · unfold input_violations
    simp only [List.length_append,
      length_filterMap_guard injectionMsg (fun p => search p (pyLower s)),
      length_filterMap_guard topicMsg (fun t => strIn (pyLower t) (pyLower s))]
    congr 1
    split <;> simp
  · unfold output_violations
    exact length_filterMap_guard sensitiveMsg (fun p => search p o)
      SENSITIVE_DATA_PATTERNS
  · intro h1 h3
    unfold validate_input
    by_cases h5 : g.strict_mode <;> simp [h1, h3, h5, List.isEmpty_iff]
  · intro h2 h4
    unfold validate_output
    by_cases h5 : g.strict_mode <;> simp [h2, h4, h5, List.isEmpty_iff]
  · exact fun search₂ s₂ h => validate_input_congr search search₂ g s s₂ h
  · exact fun search₂ o₂ h => validate_output_congr search search₂ g o o₂ h

/-- C4: the chain invocation site of `wrap_llm_call` runs at most once, never
when input validation fails, and in particular never when strict mode is on,
input validation is enabled, and the input has a violation. -/
theorem chain_invoked_at_most_once {ρ : Type}
    (search : String → String → Bool) (g : CiscoAIDefenseGuardrails)
    (chain : List (String × String) → ρ) (content : ρ → String)
    (input_dict : List (String × String)) :
    (wrap_llm_call search g chain content input_dict).2.1 ≤ 1 ∧
    ((validate_input search g
        ((input_dict.lookup "input").getD "")).1.passed = false →
      (wrap_llm_call search g chain content input_dict).2.1 = 0) ∧
    (g.strict_mode = true → g.enable_input_validation = true →
      input_violations search ((input_dict.lookup "input").getD "") ≠ [] →
      (wrap_llm_call search g chain content input_dict).2.1 = 0) := by
  refine ⟨?_, ?_, ?_⟩
  · unfold wrap_llm_call
    by_cases h : (validate_input search g
        ((input_dict.lookup "input").getD "")).1.passed <;>
      by_cases h2 : (validate_output search g
          (content (chain input_dict))).1.passed <;>
        simp [h, h2]
  · intro h
    unfold wrap_llm_call
    simp [h]
  · intro hs he hv
    have h := validate_input_strict_blocks search g
      ((input_dict.lookup "input").getD "") he hs hv
    unfold wrap_llm_call
    simp [h]

/-- Witness for C4: with strict mode on and the input "hack", the chain
invocation count is zero. -/
theorem chain_invoked_at_most_once_witness :
    (wrap_llm_call literalSearch { strict_mode := true }
        (fun _ => "ok") (fun r => r) [("input", "hack")]).2.1 = 0 :=
  (chain_invoked_at_most_once literalSearch { strict_mode := true }
      (fun _ => "ok") (fun r => r) [("input", "hack")]).2.2 rfl rfl (by decide)

/-- C8: an input longer than 10000 characters always records the length
violation, hence is blocked under strict mode with validation enabled, while
inputs of length at most 10000 never record the length violation. -/
theorem long_input_blocked (search : String → String → Bool)
    (g : CiscoAIDefenseGuardrails) (s : String)
    (h : s.length > 10000) (h1 : g.enable_input_validation = true)
    (h2 : g.strict_mode = true) :
    lengthMsg ∈ input_violations search s ∧
    (validate_input search g s).1.passed = false ∧
    (validate_input search g s).1.action = GuardrailAction.block ∧
    (∀ s' : String, s'.length ≤ 10000 →
      lengthMsg ∉ input_violations search s') := by
  have hmem : lengthMsg ∈ input_violations search s := by
    unfold input_violations
    simp [List.mem_append, h]
  have hne := List.ne_nil_of_mem hmem
  refine ⟨hmem, validate_input_strict_blocks search g s h1 h2 hne, ?_, ?_⟩
  · unfold validate_input
    simp [h1, h2, hne, List.isEmpty_iff]
  · intro s' hs'
    have hC : ¬ (s'.length > 10000) := Nat.not_lt.mpr hs'
    unfold input_violations
    simp only [hC, if_false, List.append_nil, List.mem_append, not_or]
    exact ⟨not_mem_filterMap_guard (by decide) _,
      not_mem_filterMap_guard (by decide) _⟩

/-- Witness for C8: a 10001-character input is blocked under strict mode. -/
theorem long_input_blocked_witness :
    (String.mk (List.replicate 10001 'a')).length > 10000 ∧
    (validate_input literalSearch { strict_mode := true }
        (String.mk (List.replicate 10001 'a'))).1.action =
      GuardrailAction.block := by
  have hlen : (String.mk (List.replicate 10001 'a')).length > 10000 := by
    have h1 : (String.mk (List.replicate 10001 'a')).length =
        (List.replicate 10001 'a').length := rfl
    rw [h1, List.length_replicate]
    norm_num
  exact ⟨hlen, (long_input_blocked literalSearch { strict_mode := true }
    (String.mk (List.replicate 10001 'a')) hlen rfl rfl).2.2.1⟩

/-- C10: a blocked topic triggers its violation exactly when it occurs as a
plain substring of the lowercased input — word boundaries play no role. -/
theorem blocked_topic_substring (search : String → String → Bool)
    (s topic : String) (h : topic ∈ BLOCKED_TOPICS) :
    topicMsg topic ∈ input_violations search s ↔
      strIn (pyLower topic) (pyLower s) = true := by
  have hAll : ∀ t ∈ BLOCKED_TOPICS, ∀ p ∈ INJECTION_PATTERNS,
      topicMsg t ≠ injectionMsg p := by decide
  have hLen : ∀ t ∈ BLOCKED_TOPICS, topicMsg t ≠ lengthMsg := by decide
  have hinj : ∀ a ∈ BLOCKED_TOPICS, ∀ b ∈ BLOCKED_TOPICS,
      topicMsg a = topicMsg b → a = b := by decide
  have hB := mem_filterMap_guard_iff
    (fun a ha hab => hinj a ha topic h hab) h
    (fun t => strIn (pyLower t) (pyLower s))
  have hA : topicMsg topic ∉ INJECTION_PATTERNS.filterMap
      (fun pattern => if search pattern (pyLower s) then
        some (injectionMsg pattern) else none) :=
    not_mem_filterMap_guard (fun a ha => hAll topic h a ha) _
  unfold input_violations
  simp only [List.mem_append]
  constructor
  · intro hm
    rcases hm with (hm | hm) | hm
    · exact absurd hm hA
    · exact hB.1 hm
    · by_cases hlen : s.length > 10000 <;> simp [hlen] at hm
      exact absurd hm (hLen topic h)
  · intro hcond
    exact Or.inl (Or.inr (hB.2 hcond))

/-- Witness for C10: the topic "hack" inside the longer word "Hackathon" is
flagged. -/
theorem blocked_topic_substring_witness :
    topicMsg "hack" ∈ input_violations literalSearch "Hackathon" :=
  (blocked_topic_substring literalSearch "Hackathon" "hack"
    (by decide)).mpr (by decide)

/-- Witness for C3: on the input "hack" with the default configuration, the
recorded violations are exactly the computed violations list. -/
theorem violation_counts_witness :
    (validate_input literalSearch ({} : CiscoAIDefenseGuardrails)
        "hack").1.violations = some (input_violations literalSearch "hack") :=
  (violation_counts literalSearch ({} : CiscoAIDefenseGuardrails)
    "hack" "fine").2.2.1 rfl (by decide)
